import Mathlib

/-!
Verification of the evexi buffer sink (evexi.go, disk.go, s3.go).

The Go package implements a mutex-guarded in-memory byte accumulator with two
buffer-sizing strategies (fixed-capacity and adaptive-average), on-demand and
interval-driven flushing to a pluggable exporter callback, and two concrete
exporters (disk, S3).

Modelling choices:
- A Go byte slice is `GoSlice`: its visible contents (`List Nat`, one `Nat`
  per byte) plus the capacity of its backing array.  Capacity is observable in
  Go via `cap` and determines reuse-vs-reallocate behaviour, so it is kept.
- The mutex serialises every operation; operations are therefore modelled as
  atomic transition functions on the `Evexi` state.
- The exporter callback is opaque; a dispatched `go e.export(data)` is
  modelled by returning the dispatched snapshot(s) alongside the new state,
  in dispatch order.
- Go `int` (64-bit) is modelled as `Int` without wrap-around: the counters
  only grow by buffer lengths, and reaching 2^63 would need more flushed bytes
  than are physically possible, so overflow is not modelled.
- Go integer division truncates toward zero, which is `Int.tdiv`.
-/

/-- A Go byte slice: the visible contents plus the backing array's capacity. -/
structure GoSlice where
  data : List Nat
  cap : Nat
deriving DecidableEq

/-- Go `make([]byte, n, c)`: a zero-initialised slice of length `n`, capacity `c`. -/
def goMake (n c : Nat) : GoSlice :=
  { data := List.replicate n 0, cap := c }

/-- Go `append(s, d...)`: contents are concatenated.  When the capacity
suffices the backing array is reused; otherwise Go reallocates with an
implementation-defined growth strategy, of which the model records only the
minimal resulting capacity (no claim depends on the grown capacity). -/
def goAppend (s : GoSlice) (d : List Nat) : GoSlice :=
  { data := s.data ++ d,
    cap := max s.cap (s.data.length + d.length) }

/-- The exporter callback type `func([]byte)`.  The callback itself is opaque
to the core; dispatches are modelled as returned snapshots. -/
def ExportFn : Type := List Nat → Unit

/-- The state of the `Evexi` struct (evexi.go lines 17-32).  The `export`
field and the mutex are not part of the modelled state: the callback is
opaque, and the mutex makes each operation an atomic state transition. -/
structure Evexi where
  buffer : GoSlice
  bufferMaxSize : Int
  totalBufSize : Int
  bufCount : Int
deriving DecidableEq

/-- The two error values of evexi.go lines 11-14:
`ErrExportFuncNotSet` ("export function was not set") and
`ErrNegativeOrZeroInterval` ("the export interval was negative or zero"). -/
inductive EvexiErr where
  | errExportFuncNotSet
  | errNegativeOrZeroInterval
deriving DecidableEq

/-- Model of `New` (evexi.go lines 35-57): rejects a nil export function,
otherwise builds the sink with a buffer of length 0 pre-allocated to
`bufferMaxSize` when that is positive, and no pre-allocation otherwise. -/
def New (exportFn : Option ExportFn) (bufferMaxSize : Int) : Except EvexiErr Evexi :=
  match exportFn with
  | none => .error .errExportFuncNotSet
  | some _ =>
      let initialBufSize : Int := if bufferMaxSize > 0 then bufferMaxSize else 0
      .ok { buffer := goMake 0 initialBufSize.toNat,
            bufferMaxSize := bufferMaxSize,
            totalBufSize := 0,
            bufCount := 0 }

/-- Model of the private `bytes()` (evexi.go lines 141-146):
`make([]byte, len(buffer))` followed by `copy` — a fresh slice whose capacity
equals the buffer's current length and whose contents equal the buffer's
contents (it shares no storage with the internal buffer). -/
def Evexi.bytes (e : Evexi) : GoSlice :=
  { data := e.buffer.data, cap := e.buffer.data.length }

/-- Model of the public `Bytes()` (evexi.go lines 135-140): `bytes()` under
the lock. -/
def Evexi.Bytes (e : Evexi) : GoSlice :=
  e.bytes

/-- Model of the private `reset()` (evexi.go lines 158-187), translated
branch by branch.  In the adaptive fresh-allocation branch the source runs
`make([]byte, avgBufSize)` — length `avgBufSize`, not length 0 — which the
model reproduces as `goMake avg.toNat avg.toNat`.  (`avgBufSize` is
non-negative in every reachable state; `toNat` merely totalises.) -/
def Evexi.reset (e : Evexi) : Evexi :=
  if e.bufferMaxSize > 0 then
    if (e.buffer.data.length : Int) ≥ e.bufferMaxSize then
      { e with buffer := goMake 0 e.bufferMaxSize.toNat }
    else
      { e with buffer := { e.buffer with data := [] } }
  else
    let bufCount := e.bufCount + 1
    let totalBufSize := e.totalBufSize + (e.buffer.data.length : Int)
    let avgBufSize := Int.tdiv totalBufSize bufCount
    if (e.buffer.data.length : Int) ≤ avgBufSize * 2 then
      { e with bufCount := bufCount, totalBufSize := totalBufSize,
               buffer := { e.buffer with data := [] } }
    else
      { e with bufCount := bufCount, totalBufSize := totalBufSize,
               buffer := goMake avgBufSize.toNat avgBufSize.toNat }

/-- Model of the public `Reset()` (evexi.go lines 149-154): `reset()` under
the lock. -/
def Evexi.Reset (e : Evexi) : Evexi :=
  e.reset

/-- Condition under which `reset()` takes a fresh-allocation branch instead
of truncating the existing buffer in place, read directly off the branch
conditions of evexi.go lines 160-186. -/
def Evexi.resetAllocatesFresh (e : Evexi) : Bool :=
  if e.bufferMaxSize > 0 then
    decide ((e.buffer.data.length : Int) ≥ e.bufferMaxSize)
  else
    decide (¬ ((e.buffer.data.length : Int) ≤
      (Int.tdiv (e.totalBufSize + (e.buffer.data.length : Int)) (e.bufCount + 1)) * 2))

/-- The divisor of the adaptive-mode average computation in `reset()`
(evexi.go line 177): `e.bufCount` is incremented on line 174 before the
division, so the divisor is the pre-reset `bufCount` plus one. -/
def Evexi.adaptiveResetDivisor (e : Evexi) : Int :=
  e.bufCount + 1

/-- Model of `Write` (evexi.go lines 110-132).  Returns the new state, the
snapshots dispatched to the exporter (in dispatch order), and the returned
byte count.  The inner `data := e.bytes()` of the source shadows the
parameter, so the flush exports the prior buffer contents while the append
uses the caller's data; the error result is always nil and is omitted. -/
def Evexi.write (e : Evexi) (d : List Nat) : Evexi × List (List Nat) × Nat :=
  let flushed :=
    if e.bufferMaxSize > 0 then
      if (e.buffer.data.length : Int) + (d.length : Int) > e.bufferMaxSize then
        (e.reset, [e.bytes.data])
      else (e, ([] : List (List Nat)))
    else (e, ([] : List (List Nat)))
  ({ flushed.1 with buffer := goAppend flushed.1.buffer d }, flushed.2, d.length)

/-- Model of `Export` (evexi.go lines 60-71): snapshot under the lock,
optionally `reset()`, then dispatch the snapshot.  Returns the new state and
the dispatched snapshot. -/
def Evexi.Export (e : Evexi) (rst : Bool) : Evexi × List Nat :=
  ((if rst then e.reset else e), e.bytes.data)

/-- Model of one tick of the `IntervalExport` goroutine (evexi.go lines
92-103): lock, snapshot, `reset()`, unlock, dispatch the snapshot. -/
def Evexi.intervalTick (e : Evexi) : Evexi × List Nat :=
  (e.reset, e.bytes.data)

/-- Model of the synchronous part of `IntervalExport` (evexi.go lines
75-108): a non-positive interval is rejected with `ErrNegativeOrZeroInterval`
(and the returned handle is nil); otherwise a cancellation handle (an opaque
closure, modelled as `Unit`) is returned with no error.  `time.Duration` is
an `int64` nanosecond count, modelled as `Int`.  The function does not touch
the sink state (its per-tick effect is `Evexi.intervalTick`). -/
def Evexi.IntervalExport (_e : Evexi) (exportInterval : Int) : Except EvexiErr Unit :=
  if exportInterval ≤ 0 then .error .errNegativeOrZeroInterval
  else .ok ()

/-- Sequential `Write` calls: final state plus all dispatched snapshots in
order.  Harness for claims quantifying over sequences of appends. -/
def Evexi.writeAll (e : Evexi) : List (List Nat) → Evexi × List (List Nat)
  | [] => (e, [])
  | d :: ds =>
      let r := e.write d
      let rest := r.1.writeAll ds
      (rest.1, r.2.1 ++ rest.2)

/-- States reachable from a successful `New` by any interleaving of the
sink's operations (each runs atomically under the mutex). -/
inductive Reachable : Evexi → Prop where
  | new : ∀ (f : ExportFn) (mb : Int) (e : Evexi), New (some f) mb = .ok e → Reachable e
  | writeStep : ∀ (e : Evexi) (d : List Nat), Reachable e → Reachable (e.write d).1
  | resetStep : ∀ e : Evexi, Reachable e → Reachable e.Reset
  | exportStep : ∀ (e : Evexi) (r : Bool), Reachable e → Reachable (e.Export r).1
  | tickStep : ∀ e : Evexi, Reachable e → Reachable e.intervalTick.1

/-- A wall-clock time as consumed by the exporters' `time.Now().Format`:
the six fields the layout `"2006_01_02-15_04_05"` reads. -/
structure GoTime where
  year : Nat
  month : Nat
  day : Nat
  hour : Nat
  minute : Nat
  second : Nat
deriving DecidableEq

/-- Two-digit zero-padded decimal, as the layout fragments `"01"`, `"02"`,
`"15"`, `"04"`, `"05"` print fields that are below 100 (true of calendar
months, days, hours, minutes and seconds). -/
def pad2 (n : Nat) : List Char :=
  [Nat.digitChar (n / 10 % 10), Nat.digitChar (n % 10)]

/-- Four-digit zero-padded decimal, as the layout fragment `"2006"` prints
years below 10000. -/
def pad4 (n : Nat) : List Char :=
  [Nat.digitChar (n / 1000 % 10), Nat.digitChar (n / 100 % 10),
   Nat.digitChar (n / 10 % 10), Nat.digitChar (n % 10)]

/-- Calendar validity of a `GoTime`, the domain on which `pad2`/`pad4`
coincide with Go's formatting of the layout fields. -/
def GoTime.valid (t : GoTime) : Prop :=
  t.year < 10000 ∧ 1 ≤ t.month ∧ t.month ≤ 12 ∧ 1 ≤ t.day ∧ t.day ≤ 31 ∧
    t.hour < 24 ∧ t.minute < 60 ∧ t.second < 60

instance (t : GoTime) : Decidable t.valid := by
  unfold GoTime.valid; infer_instance

/-- Model of Go's `time.Format` applied to the shared layout constant
`fileDateFormat = "2006_01_02-15_04_05"` (s3.go line 15): four-digit year,
then `_`, two-digit month, `_`, two-digit day, `-`, two-digit 24-hour hour,
`_`, two-digit minute, `_`, two-digit second. -/
def formatFileDate (t : GoTime) : List Char :=
  pad4 t.year ++ '_' :: pad2 t.month ++ '_' :: pad2 t.day ++
    '-' :: pad2 t.hour ++ '_' :: pad2 t.minute ++ '_' :: pad2 t.second

/-- A file write performed by the disk exporter: target path, contents, and
Unix permission bits. -/
structure FileWrite where
  path : List Char
  contents : List Nat
  perm : Nat
deriving DecidableEq

/-- Model of the closure returned by `ExportToDisk` (disk.go lines 22-30):
with non-empty data it writes
`Sprintf("%s%s%s_%s.txt", dir, PathSeparator, fileNamePrefix, timestamp)`
with permission 0644; with empty data it performs no write.  Strings are
modelled as `List Char`; `dir` is the resolved directory and `sep` the
platform path separator. -/
def exportToDiskFn (dir namePfx : List Char) (sep : Char) (now : GoTime)
    (logData : List Nat) : Option FileWrite :=
  if logData.length > 0 then
    some { path := dir ++ sep :: namePfx ++ '_' :: formatFileDate now ++ ".txt".data,
           contents := logData,
           perm := 0o644 }
  else
    none

/-- Spec-side shape check for the claimed timestamp pattern
`YYYY_MM_DD-hh_mm_ss`: 19 characters, digits in the `Y`/`M`/`D`/`h`/`m`/`s`
positions and the literal separators `_`, `_`, `-`, `_`, `_` between them. -/
def isTimestampPattern (s : List Char) : Bool :=
  match s with
  | [y1, y2, y3, y4, u1, mo1, mo2, u2, d1, d2, dash, h1, h2, u3, mi1, mi2, u4, s1, s2] =>
      y1.isDigit && y2.isDigit && y3.isDigit && y4.isDigit && u1 == '_' &&
      mo1.isDigit && mo2.isDigit && u2 == '_' && d1.isDigit && d2.isDigit &&
      dash == '-' && h1.isDigit && h2.isDigit && u3 == '_' &&
      mi1.isDigit && mi2.isDigit && u4 == '_' && s1.isDigit && s2.isDigit
  | _ => false

/-- A no-op exporter callback, used to instantiate `New` in concrete runs. -/
def noopExport : ExportFn := fun _ => ()

/-- The sink produced by `New(noopExport, 0)`: adaptive mode. -/
def adaptive0 : Evexi :=
  { buffer := goMake 0 0, bufferMaxSize := 0, totalBufSize := 0, bufCount := 0 }

/-- The sink produced by `New(noopExport, 10)`: fixed-capacity mode, capacity 10. -/
def fixed10 : Evexi :=
  { buffer := goMake 0 10, bufferMaxSize := 10, totalBufSize := 0, bufCount := 0 }


/-- Six bytes of value 1 — the first append of the C3 scenario. -/
def sixA : List Nat := List.replicate 6 1

/-- Six bytes of value 2 — the second append of the C3 scenario. -/
def sixB : List Nat := List.replicate 6 2

/-- The sink of the C3 scenario after `New(noopExport, 10)` and one append of
`sixA`. -/
def fixedAfter6 : Evexi := (fixed10.write sixA).1

/-- Fifteen bytes of value 7 — an oversized append for the C6 witness. -/
def fifteen7 : List Nat := List.replicate 15 7

/-- An adaptive-mode sink holding three bytes, for the C4 witness. -/
def adSample : Evexi :=
  { buffer := { data := [5, 6, 7], cap := 3 }, bufferMaxSize := 0,
    totalBufSize := 0, bufCount := 0 }

/-- Ten bytes of value 1, flushed repeatedly in the adaptive scenarios. -/
def tenOnes : List Nat := List.replicate 10 1

/-- Adaptive sink after one write-10-then-Reset cycle. -/
def ad1 : Evexi := ((adaptive0.write tenOnes).1).Reset

/-- Adaptive sink after two write-10-then-Reset cycles. -/
def ad2 : Evexi := ((ad1.write tenOnes).1).Reset

/-- Adaptive sink after three write-10-then-Reset cycles: flush history
10, 10, 10, so `totalBufSize = 30` and `bufCount = 3`. -/
def ad3 : Evexi := ((ad2.write tenOnes).1).Reset

/-- The adaptive sink of `ad3` after a further 31-byte append: the state
whose reset takes the fresh-allocation branch (31 > 2 × tdiv 61 4 = 30). -/
def adSpike : Evexi := (ad3.write (List.replicate 31 2)).1

/-- The adaptive sink of `ad3` after a 25-byte fourth append — the C2
scenario state at flush time. -/
def c2Fourth : Evexi := (ad3.write (List.replicate 25 3)).1

/-- The same state with a 31-byte fourth append instead, for contrast. -/
def c2bFourth : Evexi := (ad3.write (List.replicate 31 4)).1

/-- Fixed-capacity mode `reset()` always leaves an empty buffer: both branches
(fresh allocation and in-place truncation) produce length 0. -/
theorem reset_fixed_buffer_empty (e : Evexi) (h : e.bufferMaxSize > 0) :
    e.reset.buffer.data = [] := by
  unfold Evexi.reset
  rw [if_pos h]
  split_ifs <;> simp [goMake]

/-- The private `reset()` never changes `bufferMaxSize`. -/
theorem reset_bufferMaxSize (e : Evexi) : e.reset.bufferMaxSize = e.bufferMaxSize := by
  simp only [Evexi.reset]
  split_ifs <;> rfl

/-- Shared characterisation of an overflowing `Write` in fixed-capacity mode:
the prior contents are snapshotted and dispatched once, the buffer afterwards
holds exactly the new data, and the returned count is the data's length. -/
theorem write_overflow_spec (e : Evexi) (d : List Nat)
    (hmb : e.bufferMaxSize > 0)
    (hover : (e.buffer.data.length : Int) + (d.length : Int) > e.bufferMaxSize) :
    (e.write d).2.1 = [e.buffer.data] ∧
    (e.write d).1.buffer.data = d ∧
    (e.write d).2.2 = d.length := by
  simp only [Evexi.write]
  rw [if_pos hmb, if_pos hover]
  refine ⟨by simp [Evexi.bytes], ?_, by simp⟩
  simp [goAppend, reset_fixed_buffer_empty e hmb]

/-- Shared characterisation of a non-flushing `Write`: when no fixed-capacity
overflow occurs the data is appended in place and nothing is dispatched. -/
theorem write_no_flush (e : Evexi) (d : List Nat)
    (h : e.bufferMaxSize > 0 → (e.buffer.data.length : Int) + (d.length : Int) ≤ e.bufferMaxSize) :
    e.write d = ({ e with buffer := goAppend e.buffer d }, [], d.length) := by
  simp only [Evexi.write]
  split_ifs with h1 h2
  · exact absurd (h h1) (not_le.mpr h2)
  · rfl
  · rfl

/-- Claim C3: in fixed-capacity mode, an append with
`len(buffer) + len(data) > fixedCapacity` performs an implicit flush first:
the prior buffer contents are dispatched to the exporter (exactly once), and
after the append the buffer contains exactly `data` and nothing of the prior
contents; the returned count is `len(data)`. -/
theorem c3_fixed_overflow_implicit_flush (e : Evexi) (d : List Nat)
    (hmb : e.bufferMaxSize > 0)
    (hover : (e.buffer.data.length : Int) + (d.length : Int) > e.bufferMaxSize) :
    (e.write d).2.1 = [e.buffer.data] ∧
    (e.write d).1.buffer.data = d ∧
    (e.write d).2.2 = d.length :=
  write_overflow_spec e d hmb hover

/-- Witness for C3, the spec's scenario: with `fixedCapacity = 10`, appending
6 bytes dispatches nothing; appending 6 more dispatches exactly the first 6
bytes once, and `Bytes()` afterwards returns the second 6 bytes. -/
theorem c3_witness :
    (fixed10.write sixA).2.1 = ([] : List (List Nat)) ∧
    ((fixedAfter6.write sixB).2.1 = [sixA] ∧
      (fixedAfter6.write sixB).1.buffer.data = sixB ∧
      (fixedAfter6.write sixB).2.2 = sixB.length) ∧
    (fixedAfter6.write sixB).1.Bytes.data = sixB :=
  ⟨by decide,
   c3_fixed_overflow_implicit_flush fixedAfter6 sixB (by decide) (by decide),
   by decide⟩

/-- Claim C6: in fixed-capacity mode a single append longer than
`fixedCapacity` is accepted whole: the prior contents (possibly empty) are
flushed exactly once, all of `data` is appended, the buffer ends with length
`len(data) > fixedCapacity`, and the call returns `len(data)` — the oversized
append is never split, rejected, or flushed again within the same call. -/
theorem c6_oversized_append_accepted (e : Evexi) (d : List Nat)
    (hmb : e.bufferMaxSize > 0)
    (hbig : (d.length : Int) > e.bufferMaxSize) :
    (e.write d).2.2 = d.length ∧
    (e.write d).2.1 = [e.buffer.data] ∧
    (e.write d).1.buffer.data = d ∧
    ((e.write d).1.buffer.data.length : Int) > e.bufferMaxSize := by
  have hover : (e.buffer.data.length : Int) + (d.length : Int) > e.bufferMaxSize := by
    have hge : (0 : Int) ≤ (e.buffer.data.length : Int) := Int.ofNat_nonneg _
    omega
  obtain ⟨h1, h2, h3⟩ := write_overflow_spec e d hmb hover
  refine ⟨h3, h1, h2, ?_⟩
  rw [h2]
  exact hbig

/-- Witness for C6: with `fixedCapacity = 10` and a buffer already holding 6
bytes, a 15-byte append is accepted whole, flushes the 6 prior bytes once, and
leaves the buffer holding all 15 bytes. -/
theorem c6_witness :
    (fixedAfter6.write fifteen7).2.2 = fifteen7.length ∧
    (fixedAfter6.write fifteen7).2.1 = [fixedAfter6.buffer.data] ∧
    (fixedAfter6.write fifteen7).1.buffer.data = fifteen7 ∧
    ((fixedAfter6.write fifteen7).1.buffer.data.length : Int) > fixedAfter6.bufferMaxSize :=
  c6_oversized_append_accepted fixedAfter6 fifteen7 (by decide) (by decide)

/-- Claim C7: `New` fails with `ErrExportFuncNotSet` exactly when the export
function is nil; on success the initial buffer has length 0 with capacity
`bufferMaxSize` when that is positive and capacity 0 otherwise, and the
bookkeeping fields start at zero. -/
theorem c7_new_validation_and_preallocation (o : Option ExportFn) (mb : Int) :
    New o mb =
      match o with
      | none => .error .errExportFuncNotSet
      | some _ =>
          .ok { buffer := { data := [], cap := (if mb > 0 then mb else 0).toNat },
                bufferMaxSize := mb, totalBufSize := 0, bufCount := 0 } := by
  cases o <;> simp [New, goMake]

/-- Claim C8: `IntervalExport` fails with `ErrNegativeOrZeroInterval` (and
returns no handle) exactly when the period is non-positive — including
exactly 0 — and returns a cancellation handle with no error exactly when the
period is positive.  The sink state is untouched either way: the operation is
a pure function of the period. -/
theorem c8_interval_export_validation (e : Evexi) (p : Int) :
    (e.IntervalExport p = .error .errNegativeOrZeroInterval ↔ p ≤ 0) ∧
    (e.IntervalExport p = .ok () ↔ 0 < p) := by
  unfold Evexi.IntervalExport
  split_ifs with h <;> constructor <;> simp <;> omega

/-- Shared characterisation of the adaptive-mode branch of `reset()`,
proved once and instantiated by the C4 theorem and the C9 divisor fact. -/
theorem reset_adaptive_steps (e : Evexi) (h : e.bufferMaxSize ≤ 0) :
    e.reset.bufCount = e.bufCount + 1 ∧
    e.reset.totalBufSize = e.totalBufSize + (e.buffer.data.length : Int) ∧
    (((e.buffer.data.length : Int) ≤
        (Int.tdiv (e.totalBufSize + (e.buffer.data.length : Int)) (e.bufCount + 1)) * 2 →
      e.reset.buffer = { data := [], cap := e.buffer.cap }) ∧
      (¬ ((e.buffer.data.length : Int) ≤
        (Int.tdiv (e.totalBufSize + (e.buffer.data.length : Int)) (e.bufCount + 1)) * 2) →
      e.reset.buffer =
        goMake (Int.tdiv (e.totalBufSize + (e.buffer.data.length : Int)) (e.bufCount + 1)).toNat
               (Int.tdiv (e.totalBufSize + (e.buffer.data.length : Int)) (e.bufCount + 1)).toNat)) := by
  have hmb : ¬ (e.bufferMaxSize > 0) := not_lt.mpr h
  simp only [Evexi.reset]
  rw [if_neg hmb]
  split_ifs with hle
  · exact ⟨rfl, rfl, fun _ => rfl, fun hc => absurd hle hc⟩
  · exact ⟨rfl, rfl, fun hc => absurd hc hle, fun _ => rfl⟩

/-- Claim C4: the adaptive-mode reset policy increments `bufCount`, adds the
just-reset buffer's length to `totalBufSize`, computes the truncating integer
average with divisor `bufCount + 1`, and then either truncates the existing
buffer in place (same backing storage, length 0) when the length is at most
twice the average, or replaces it with a freshly `make`-allocated buffer of
capacity `avg` otherwise.  (The fresh buffer is `make([]byte, avg)`: capacity
`avg`, and also length `avg` — the emptiness deviation is settled under C1.) -/
theorem c4_adaptive_reset_policy (e : Evexi) (h : e.bufferMaxSize ≤ 0) :
    e.reset.bufCount = e.bufCount + 1 ∧
    e.reset.totalBufSize = e.totalBufSize + (e.buffer.data.length : Int) ∧
    (((e.buffer.data.length : Int) ≤
        (Int.tdiv (e.totalBufSize + (e.buffer.data.length : Int)) (e.bufCount + 1)) * 2 →
      e.reset.buffer = { data := [], cap := e.buffer.cap }) ∧
      (¬ ((e.buffer.data.length : Int) ≤
        (Int.tdiv (e.totalBufSize + (e.buffer.data.length : Int)) (e.bufCount + 1)) * 2) →
      e.reset.buffer =
        goMake (Int.tdiv (e.totalBufSize + (e.buffer.data.length : Int)) (e.bufCount + 1)).toNat
               (Int.tdiv (e.totalBufSize + (e.buffer.data.length : Int)) (e.bufCount + 1)).toNat)) :=
  reset_adaptive_steps e h

/-- Witness for C4 at `adSample`: the average becomes `tdiv (0+3) 1 = 3`,
`3 ≤ 2 × 3`, so the buffer is truncated in place. -/
theorem c4_witness :
    adSample.reset.bufCount = adSample.bufCount + 1 ∧
    adSample.reset.totalBufSize = adSample.totalBufSize + (adSample.buffer.data.length : Int) ∧
    (((adSample.buffer.data.length : Int) ≤
        (Int.tdiv (adSample.totalBufSize + (adSample.buffer.data.length : Int))
          (adSample.bufCount + 1)) * 2 →
      adSample.reset.buffer = { data := [], cap := adSample.buffer.cap }) ∧
      (¬ ((adSample.buffer.data.length : Int) ≤
        (Int.tdiv (adSample.totalBufSize + (adSample.buffer.data.length : Int))
          (adSample.bufCount + 1)) * 2) →
      adSample.reset.buffer =
        goMake (Int.tdiv (adSample.totalBufSize + (adSample.buffer.data.length : Int))
                  (adSample.bufCount + 1)).toNat
               (Int.tdiv (adSample.totalBufSize + (adSample.buffer.data.length : Int))
                  (adSample.bufCount + 1)).toNat)) :=
  c4_adaptive_reset_policy adSample (by decide)

/-- Claim C1 (evaluation at the failing input): from a freshly constructed
adaptive sink, after flushes of length 10, 10, 10 and a 31-byte append, a
`Reset()` takes the fresh-allocation branch `make([]byte, avgBufSize)` and
leaves a buffer of length `tdiv 61 4 = 15`, so `len(Bytes()) = 15 ≠ 0` —
the code violates the claimed post-reset emptiness (the intended allocation
is `make([]byte, 0, avgBufSize)`, as written at evexi.go lines 48 and 163). -/
theorem c1_reset_leaves_nonempty_buffer :
    adSpike.bufferMaxSize = 0 ∧
    adSpike.buffer.data.length = 31 ∧
    adSpike.totalBufSize = 30 ∧ adSpike.bufCount = 3 ∧
    adSpike.Reset.Bytes.data.length = 15 ∧
    adSpike.Reset.Bytes.data.length ≠ 0 ∧
    (adSpike.Export true).1.Bytes.data.length = 15 ∧
    adSpike.intervalTick.1.Bytes.data.length = 15 := by decide

/-- Counterexample to C2: in the spec's scenario (adaptive mode, three flushes
of length 10, fourth buffer of length 25) the running average before the
fourth flush is 10, but the code updates the average first —
`tdiv (30 + 25) 4 = 13` — and since `25 ≤ 2 × 13` the fourth reset REUSES the
buffer (in-place truncation, backing capacity retained), not a fresh
allocation as the claim states. -/
theorem c2_counterexample_reuse_not_fresh :
    c2Fourth.bufCount = 3 ∧
    c2Fourth.totalBufSize = 30 ∧
    Int.tdiv c2Fourth.totalBufSize c2Fourth.bufCount = 10 ∧
    c2Fourth.buffer.data.length = 25 ∧
    c2Fourth.resetAllocatesFresh = false ∧
    c2Fourth.Reset.buffer = { data := [], cap := c2Fourth.buffer.cap } ∧
    c2Fourth.Reset.buffer ≠ goMake 13 13 := by decide

/-- Claim C2 as amended: after three flushes of length 10 the running average
is 10, but at the fourth flush the policy first folds the 25-byte buffer into
the average (`tdiv 55 4 = 13`), and since `25 ≤ 2 × 13` the buffer is reused
(truncated in place), not freshly allocated; a fourth buffer of length 31
(which exceeds `2 × tdiv 61 4 = 30`) is what causes a fresh allocation. -/
theorem c2_amended_adaptive_fourth_flush :
    c2Fourth.bufCount = 3 ∧
    c2Fourth.totalBufSize = 30 ∧
    Int.tdiv c2Fourth.totalBufSize c2Fourth.bufCount = 10 ∧
    c2Fourth.buffer.data.length = 25 ∧
    c2Fourth.Reset.bufCount = 4 ∧
    c2Fourth.Reset.totalBufSize = 55 ∧
    Int.tdiv (55 : Int) 4 = 13 ∧
    c2Fourth.resetAllocatesFresh = false ∧
    c2Fourth.Reset.buffer = { data := [], cap := c2Fourth.buffer.cap } ∧
    c2bFourth.buffer.data.length = 31 ∧
    c2bFourth.resetAllocatesFresh = true ∧
    c2bFourth.Reset.buffer = goMake 15 15 := by decide

/-- The private `reset()` keeps the bookkeeping counters non-negative. -/
theorem reset_counts_nonneg (e : Evexi)
    (h1 : 0 ≤ e.bufCount) (h2 : 0 ≤ e.totalBufSize) :
    0 ≤ e.reset.bufCount ∧ 0 ≤ e.reset.totalBufSize := by
  simp only [Evexi.reset]
  split_ifs <;> constructor <;> simp <;> omega

/-- The `Write` operation keeps the bookkeeping counters non-negative (its
only counter mutation is through the implicit-flush `reset()`). -/
theorem write_counts_nonneg (e : Evexi) (d : List Nat)
    (h1 : 0 ≤ e.bufCount) (h2 : 0 ≤ e.totalBufSize) :
    0 ≤ (e.write d).1.bufCount ∧ 0 ≤ (e.write d).1.totalBufSize := by
  simp only [Evexi.write]
  split_ifs <;> simp <;> first
    | exact reset_counts_nonneg e h1 h2
    | exact ⟨h1, h2⟩

/-- Invariant: in every reachable state both adaptive-mode counters are
non-negative. -/
theorem reachable_counts_nonneg (e : Evexi) (h : Reachable e) :
    0 ≤ e.bufCount ∧ 0 ≤ e.totalBufSize := by
  induction h with
  | new f mb e hok =>
      simp only [New, Except.ok.injEq] at hok
      subst hok
      exact ⟨le_refl 0, le_refl 0⟩
  | writeStep e d _ ih => exact write_counts_nonneg e d ih.1 ih.2
  | resetStep e _ ih => exact reset_counts_nonneg e ih.1 ih.2
  | exportStep e r _ ih =>
      cases r with
      | true => exact reset_counts_nonneg e ih.1 ih.2
      | false => exact ih
  | tickStep e _ ih => exact reset_counts_nonneg e ih.1 ih.2

/-- Claim C9: in every reachable state the divisor of the adaptive-mode
average computation — `bufCount` incremented just before the division — is at
least 1, so `totalBufSize / bufCount` in `reset()` is never a division by
zero; accordingly, after an adaptive reset `bufCount` equals that positive
divisor. -/
theorem c9_adaptive_divisor_never_zero (e : Evexi) (h : Reachable e) :
    1 ≤ e.adaptiveResetDivisor ∧ e.adaptiveResetDivisor ≠ 0 ∧
      (e.bufferMaxSize ≤ 0 → e.reset.bufCount = e.adaptiveResetDivisor) := by
  have hn := (reachable_counts_nonneg e h).1
  refine ⟨by simp only [Evexi.adaptiveResetDivisor]; omega,
          by simp only [Evexi.adaptiveResetDivisor]; omega, ?_⟩
  intro hmb
  exact (reset_adaptive_steps e hmb).1

/-- Witness for C9 at the freshly constructed adaptive sink, reachable via
`New(noopExport, 0)`. -/
theorem c9_witness :
    1 ≤ adaptive0.adaptiveResetDivisor ∧ adaptive0.adaptiveResetDivisor ≠ 0 ∧
      (adaptive0.bufferMaxSize ≤ 0 →
        adaptive0.reset.bufCount = adaptive0.adaptiveResetDivisor) :=
  c9_adaptive_divisor_never_zero adaptive0 (Reachable.new noopExport 0 adaptive0 rfl)

/-- Sequential writes whose total length never triggers a fixed-capacity
overflow: every write appends in place, nothing is dispatched, and
`bufferMaxSize` is untouched. -/
theorem writeAll_no_flush (ds : List (List Nat)) : ∀ e : Evexi,
    (e.bufferMaxSize > 0 →
      (e.buffer.data.length : Int) + ((ds.map List.length).sum : Int) ≤ e.bufferMaxSize) →
    (e.writeAll ds).1.buffer.data = e.buffer.data ++ ds.flatten ∧
    (e.writeAll ds).2 = [] ∧
    (e.writeAll ds).1.bufferMaxSize = e.bufferMaxSize := by
  induction ds with
  | nil =>
      intro e h
      exact ⟨by simp [Evexi.writeAll], rfl, rfl⟩
  | cons d ds ih =>
      intro e h
      have hsum : (((d :: ds).map List.length).sum : Int)
          = (d.length : Int) + ((ds.map List.length).sum : Int) := by
        simp
      have hnn : (0 : Int) ≤ ((ds.map List.length).sum : Int) := Int.ofNat_nonneg _
      have hd : e.bufferMaxSize > 0 →
          (e.buffer.data.length : Int) + (d.length : Int) ≤ e.bufferMaxSize := by
        intro hmb
        have hh := h hmb
        rw [hsum] at hh
        omega
      have hw := write_no_flush e d hd
      obtain ⟨ha, hb, hc⟩ := ih ({ e with buffer := goAppend e.buffer d }) (by
        intro hmb
        dsimp only at hmb ⊢
        have hh := h hmb
        rw [hsum] at hh
        simp only [goAppend, List.length_append]
        push_cast
        push_cast at hh
        omega)
      simp only [Evexi.writeAll]
      rw [hw]
      refine ⟨?_, ?_, hc⟩
      · rw [ha]
        simp [goAppend]
      · simpa using hb

/-- Claim C5: from a freshly constructed sink, any sequence of appends whose
total length never triggers a fixed-capacity implicit flush leaves the buffer
holding exactly the concatenation of the appended sequences in order, with no
exporter dispatch; `Bytes()` returns that concatenation as a fresh copy whose
capacity equals its own length (allocated by `make`+`copy`, sharing no
storage with the sink's internal buffer). -/
theorem c5_bytes_concatenation (f : ExportFn) (mb : Int) (e0 : Evexi)
    (ds : List (List Nat))
    (hnew : New (some f) mb = .ok e0)
    (hcap : mb > 0 → ((ds.map List.length).sum : Int) ≤ mb) :
    (e0.writeAll ds).1.Bytes = { data := ds.flatten, cap := ds.flatten.length } ∧
    (e0.writeAll ds).2 = [] := by
  simp only [New, Except.ok.injEq] at hnew
  subst hnew
  obtain ⟨ha, hb, _⟩ := writeAll_no_flush ds
    { buffer := goMake 0 (if mb > 0 then mb else 0).toNat, bufferMaxSize := mb,
      totalBufSize := 0, bufCount := 0 }
    (by
      intro hmb
      dsimp only at hmb ⊢
      have h1 := hcap hmb
      simp only [goMake, List.length_replicate]
      push_cast
      push_cast at h1
      omega)
  refine ⟨?_, hb⟩
  simp only [Evexi.Bytes, Evexi.bytes]
  rw [ha]
  simp [goMake]

/-- Witness for C5: `New(noopExport, 10)` then appends `[1,2]` and `[3]` —
`Bytes()` is the copy `⟨[1,2,3], 3⟩` and nothing was dispatched. -/
theorem c5_witness :
    (fixed10.writeAll [[1, 2], [3]]).1.Bytes = { data := [1, 2, 3], cap := 3 } ∧
    (fixed10.writeAll [[1, 2], [3]]).2 = [] :=
  c5_bytes_concatenation noopExport 10 fixed10 [[1, 2], [3]] rfl (by decide)

/-- Decimal digit characters produced by `Nat.digitChar` on values below ten
are digits. -/
theorem digitChar_mod_ten_isDigit (n : Nat) : (Nat.digitChar (n % 10)).isDigit = true := by
  have h : n % 10 < 10 := Nat.mod_lt _ (by decide)
  interval_cases h1 : (n % 10) <;> rfl

/-- Claim C10: for every invocation with non-empty data the disk exporter
writes to `dir ++ separator ++ "<prefixName>_<timestamp>.txt"` with the
timestamp produced by the shared layout `"2006_01_02-15_04_05"`, whose output
matches the shape `YYYY_MM_DD-hh_mm_ss` (digits and literal separators); for
every invocation with empty data no write is performed at all. -/
theorem c10_disk_export_naming (dir namePfx : List Char) (sep : Char) (t : GoTime)
    (logData : List Nat) (_hv : t.valid) :
    (logData ≠ [] →
      exportToDiskFn dir namePfx sep t logData =
        some { path := dir ++ sep :: namePfx ++ '_' :: formatFileDate t ++ ".txt".data,
               contents := logData, perm := 0o644 }) ∧
    isTimestampPattern (formatFileDate t) = true ∧
    (logData = [] → exportToDiskFn dir namePfx sep t logData = none) := by
  refine ⟨?_, ?_, ?_⟩
  · intro hne
    unfold exportToDiskFn
    rw [if_pos]
    exact List.length_pos.mpr hne
  · simp only [formatFileDate, pad4, pad2, List.cons_append, List.nil_append,
      isTimestampPattern, Bool.and_eq_true, beq_self_eq_true, and_true,
      digitChar_mod_ten_isDigit, and_self]
  · intro hz
    subst hz
    rfl

/-- Witness for C10 at a concrete invocation: directory `"/tmp"`, name
`"app"`, separator `'/'`, time 2026-10-11 12:34:56, data `[65]` — the write
goes to `"/tmp/app_2026_10_11-12_34_56.txt"`. -/
theorem c10_witness :
    ((([65] : List Nat) ≠ [] →
      exportToDiskFn "/tmp".data "app".data '/' ⟨2026, 10, 11, 12, 34, 56⟩ [65] =
        some { path := "/tmp".data ++ '/' :: "app".data ++ '_' ::
                 formatFileDate ⟨2026, 10, 11, 12, 34, 56⟩ ++ ".txt".data,
               contents := [65], perm := 0o644 }) ∧
      isTimestampPattern (formatFileDate ⟨2026, 10, 11, 12, 34, 56⟩) = true ∧
      (([65] : List Nat) = [] →
        exportToDiskFn "/tmp".data "app".data '/' ⟨2026, 10, 11, 12, 34, 56⟩ [65] = none)) ∧
    exportToDiskFn "/tmp".data "app".data '/' ⟨2026, 10, 11, 12, 34, 56⟩ [65] =
      some { path := "/tmp/app_2026_10_11-12_34_56.txt".data,
             contents := [65], perm := 0o644 } :=
  ⟨c10_disk_export_naming "/tmp".data "app".data '/' ⟨2026, 10, 11, 12, 34, 56⟩ [65]
      (by decide),
   by decide⟩
